import Mathlib

/-!
Shallow embedding of the Turn Coordinator of `buddy_bot.py` (class `BuddyBot`),
the per-user batching / debounce state machine in front of the Telegram
transport and the Groq completion client.

Modelling conventions:

* One user is modelled (all coordinator state is keyed per user; claims are
  per-user properties).  `Sys.userState = none` models the user id being
  absent from `BuddyBot.user_states`; `Sys.typing` models membership of the
  user in `BuddyBot.typing_users`.
* asyncio tasks (`timer_task`, `ai_task`) are modelled by numeric handles:
  `spawn` allocates a fresh id and puts it in `Sys.live` (created, not done,
  not cancelled); `cancelTask` moves a live id to `Sys.cancelled`
  (`task.cancel()` guarded by `task and not task.done()`); `finishTask`
  removes a live id (the task ran to completion).  A task body only runs
  while its id is live: a cancelled `_batch_timer` is woken with
  `CancelledError` inside `asyncio.sleep` and its `except` block only logs.
* External effects are recorded in an ordered trace: completed
  `bot.send_message` calls (`Act.send`), `asyncio.sleep` (`Act.sleepFor`),
  Groq completion invocations (`Act.groqCall`) and typing-indicator
  `send_chat_action` signals (`Act.chatAction`).
* The completion client `groq.chat.completions.create` is an oracle
  `groq : String -> Option String`: `some r` is a successful reply `r`,
  `none` is a raised exception (caught by `except Exception`).
* Outbound delivery is modelled as succeeding except where a claim concerns
  its failure: `send_stitched_response` takes a `deliverOk` flag modelling
  whether `bot.send_message` raises (its `except Exception` block then stops
  typing and skips `pending_messages.clear()`).
* `UserState.last_activity` (a wall-clock timestamp, informational per the
  code: nothing reads it) is omitted from the record.
-/

inductive BotMode where
  | single
  | parallel
  | stitch
  deriving DecidableEq, Repr

/-- Python `BotMode(Enum).value`. -/
def BotMode.value : BotMode → String
  | .single => "single"
  | .parallel => "parallel"
  | .stitch => "stitch"

/-- Dataclass `UserState` from `buddy_bot.py` (minus the informational
`last_activity` timestamp).  Task fields hold numeric handles into the
task pool of `Sys`. -/
structure UserState where
  mode : BotMode := .single
  pending_messages : List String := []
  timer_task : Option Nat := none
  ai_task : Option Nat := none
  prepared_response : Option String := none
  deriving DecidableEq, Repr

/-- Observable external actions, recorded in order. -/
inductive Act where
  | send (text : String)
  | sleepFor (secs : Nat)
  | groqCall (prompt : String)
  | chatAction
  deriving DecidableEq, Repr

/-- Whole-system state for one user: the coordinator entry, the typing set
membership, the asyncio task pool, and the trace of external actions. -/
structure Sys where
  userState : Option UserState := none
  typing : Bool := false
  live : List Nat := []
  cancelled : List Nat := []
  nextId : Nat := 0
  trace : List Act := []
  deriving DecidableEq, Repr

/-- Texts of the completed outbound `send_message` calls, in order. -/
def sends (tr : List Act) : List String :=
  tr.filterMap fun a => match a with
    | .send t => some t
    | _ => none

def emit (a : Act) (s : Sys) : Sys := { s with trace := s.trace ++ [a] }

/-- Python `" ".join(...)`. -/
def joinSp (l : List String) : String := String.intercalate " " l

/-- Method `_start_typing`: no-op when the user is already signalling,
otherwise add to `typing_users` and send one chat action. -/
def startTyping (s : Sys) : Sys :=
  if s.typing then s else emit .chatAction { s with typing := true }

/-- Method `_stop_typing`: idempotent removal from `typing_users`. -/
def stopTyping (s : Sys) : Sys := { s with typing := false }

/-- Pattern `if task and not task.done(): task.cancel()`. -/
def cancelTask : Option Nat → Sys → Sys
  | none, s => s
  | some i, s =>
      if i ∈ s.live then
        { s with live := s.live.erase i, cancelled := i :: s.cancelled }
      else s

/-- `asyncio.create_task`: allocate a fresh live task handle. -/
def spawn (s : Sys) : Nat × Sys :=
  (s.nextId, { s with live := s.nextId :: s.live, nextId := s.nextId + 1 })

/-- A live task's body has run to completion: the handle is done. -/
def finishTask (i : Nat) (s : Sys) : Sys := { s with live := s.live.erase i }

/-- Fallback apology dispatched when the completion client fails. -/
def fallback : String := "Oops! I had a hiccup there. Could you try again? 😅"

/-- The `mode_descriptions` dict in `mode_command`. -/
def modeDescription : BotMode → String
  | .single => "I\x27ll batch your messages and respond once after the window closes! 📦"
  | .parallel => "I\x27ll start working immediately but restart if you send more messages! ⚡"
  | .stitch => "I\x27ll just echo back your combined messages! 🔁"

/-- Body of `_generate_ai_response` when it runs to completion without being
cancelled.  `groq` is the completion-client oracle (`none` = raised
exception, handled by the `except Exception` block, so a client failure
never propagates as a crash).  Faithful points: the early return on empty
`pending_messages`; the `wait_for_batch` success path only stages
`prepared_response` (no dispatch, no typing stop, no pending clear); the
error path stops typing, dispatches the fixed fallback and clears
`pending_messages` but leaves `prepared_response` untouched. -/
def generate (groq : String → Option String) (wait_for_batch : Bool) (s : Sys) : Sys :=
  match s.userState with
  | none => s
  | some us =>
    if us.pending_messages = [] then s
    else
      let stitched := joinSp us.pending_messages
      let s1 := emit (.groqCall stitched) (startTyping s)
      match groq stitched with
      | some r =>
        if wait_for_batch then
          { s1 with userState := some { us with prepared_response := some r } }
        else
          let s2 := emit (.send r) (stopTyping s1)
          { s2 with userState := some { us with pending_messages := [] } }
      | none =>
        let s2 := emit (.send fallback) (stopTyping s1)
        { s2 with userState := some { us with pending_messages := [] } }

/-- Effect of a cancelled `_generate_ai_response` task.  In asyncio the
only suspension points of the coroutine are (the Groq call itself is a
synchronous, blocking call): before its first step, the
`send_chat_action` await inside `_start_typing`, and the `send_message`
await of the error path.  `p` selects which suspension point the
`CancelledError` was delivered at:
0 = cancelled before the coroutine first ran (no effect at all);
1 = cancelled at the typing await (the `except CancelledError` handler
    runs `_stop_typing`);
2 = cancelled at the error-path `send_message` await (typing was already
    stopped on line 301; the apology send does not complete and
    `pending_messages.clear()` is never reached). -/
def generateCancelled (p : Fin 3) (s : Sys) : Sys :=
  match p with
  | 0 => s
  | 1 => stopTyping s
  | 2 =>
    match s.userState with
    | none => s
    | some us =>
      if us.pending_messages = [] then s
      else stopTyping (emit (.groqCall (joinSp us.pending_messages)) (startTyping s))

/-- Method `_send_prepared_response`: early return when nothing is staged;
otherwise stop typing, dispatch the staged reply and clear both
`pending_messages` and `prepared_response`.  (Python tests truthiness of
`prepared_response`; a staged reply, when present, is the non-empty text
of a completion, so `Option` mirrors the guard.) -/
def send_prepared_response (s : Sys) : Sys :=
  match s.userState with
  | none => s
  | some us =>
    match us.prepared_response with
    | none => s
    | some r =>
      let s1 := emit (.send r) (stopTyping s)
      let us1 := { us with pending_messages := ([] : List String), prepared_response := none }
      { s1 with userState := some us1 }

/-- Method `_send_stitched_response`.  `deliverOk` models whether the
outbound `send_message` succeeds; on failure the `except Exception`
block stops typing and `pending_messages.clear()` is skipped. -/
def send_stitched_response (deliverOk : Bool) (s : Sys) : Sys :=
  match s.userState with
  | none => s
  | some us =>
    if us.pending_messages = [] then s
    else
      let s1 := emit (.sleepFor 1) (startTyping s)
      let stitched := joinSp us.pending_messages
      if deliverOk then
        let s2 := emit (.send ("You said: " ++ stitched)) (stopTyping s1)
        { s2 with userState := some { us with pending_messages := [] } }
      else
        stopTyping s1

/-- Body of `_batch_timer` after its `asyncio.sleep(BATCH_WINDOW)` completes
(i.e. the timer was not cancelled).  In parallel mode, a still-live
`ai_task` is awaited: its body runs to completion here. -/
def batch_timer_body (groq : String → Option String) (deliverOk : Bool) (s : Sys) : Sys :=
  match s.userState with
  | none => s
  | some us =>
    match us.mode with
    | .single => generate groq false s
    | .parallel =>
      let s1 :=
        match us.ai_task with
        | some i => if i ∈ s.live then finishTask i (generate groq true s) else s
        | none => s
      send_prepared_response s1
    | .stitch => send_stitched_response deliverOk s

/-- The timer task `i` fires: only a still-live (not cancelled, not done)
timer runs `_batch_timer`'s body; a cancelled timer only logs. -/
def fireTimer (groq : String → Option String) (deliverOk : Bool) (i : Nat) (s : Sys) : Sys :=
  if i ∈ s.live then batch_timer_body groq deliverOk (finishTask i s) else s

/-- The generation task `i` (created with `wait_for_batch=True` in parallel
mode) runs to completion on its own, before the window expires. -/
def aiComplete (groq : String → Option String) (i : Nat) (s : Sys) : Sys :=
  if i ∈ s.live then finishTask i (generate groq true s) else s

/-- Lazy state creation: `if user_id not in self.user_states:
self.user_states[user_id] = UserState()`. -/
def getOrCreate (s : Sys) : Sys :=
  match s.userState with
  | some _ => s
  | none => { s with userState := some {} }

/-- Method `_handle_single_mode` (after the message was appended): typing on
first fragment, cancel any live timer, start a fresh one. -/
def handle_single (s : Sys) : Sys :=
  match s.userState with
  | none => s
  | some us =>
    let s1 := if us.pending_messages.length = 1 then startTyping s else s
    let s2 := cancelTask us.timer_task s1
    let (t, s3) := spawn s2
    { s3 with userState := some { us with timer_task := some t } }

/-- Method `_handle_stitch_mode`: identical timer handling to single mode. -/
def handle_stitch (s : Sys) : Sys :=
  match s.userState with
  | none => s
  | some us =>
    let s1 := if us.pending_messages.length = 1 then startTyping s else s
    let s2 := cancelTask us.timer_task s1
    let (t, s3) := spawn s2
    { s3 with userState := some { us with timer_task := some t } }

/-- Method `_handle_parallel_mode`: typing on first fragment, cancel any
live generation task, cancel any live timer, start a fresh generation
task (with `wait_for_batch=True`) and a fresh timer. -/
def handle_parallel (s : Sys) : Sys :=
  match s.userState with
  | none => s
  | some us =>
    let s1 := if us.pending_messages.length = 1 then startTyping s else s
    let s2 := cancelTask us.ai_task s1
    let s3 := cancelTask us.timer_task s2
    let (a, s4) := spawn s3
    let (t, s5) := spawn s4
    { s5 with userState := some { us with ai_task := some a, timer_task := some t } }

/-- Method `handle_message`: lazily create the user state, append the text
to `pending_messages`, dispatch on the current mode. -/
def handle_message (text : String) (s : Sys) : Sys :=
  let s0 := getOrCreate s
  match s0.userState with
  | none => s0
  | some us =>
    let us1 := { us with pending_messages := us.pending_messages ++ [text] }
    let s1 := { s0 with userState := some us1 }
    match us1.mode with
    | .single => handle_single s1
    | .parallel => handle_parallel s1
    | .stitch => handle_stitch s1

/-- The welcome text of `start_command` (returned to the command layer). -/
def welcome_message : String :=
  "👋 Hey there! I\x27m Buddy, your friendly chat companion!\n\n" ++
  "I have three different modes to chat with you:\n\n" ++
  "🔸 `/single` - I\x27ll wait for all your messages in a 5-second window, " ++
  "then give you one thoughtful response\n\n" ++
  "🔸 `/parallel` - I start thinking as soon as you message me, but if you " ++
  "send more messages, I\x27ll restart with everything combined\n\n" ++
  "🔸 `/stitch` - I just repeat back what you said (great for testing!)\n\n" ++
  "Currently in **single** mode. What\x27s on your mind? 😊"

/-- Method `start_command`: `self.user_states[user_id] = UserState()` and a
welcome reply.  Note: it does not call `_cancel_user_operations` — the
old task handles are only discarded. -/
def start_command (s : Sys) : Sys × String :=
  ({ s with userState := some {} }, welcome_message)

/-- Method `_cancel_user_operations`: early return if the user has no state;
otherwise cancel a live timer and a live generation task, stop typing,
clear `pending_messages` and `prepared_response` (handles are not
nulled). -/
def cancel_user_operations (s : Sys) : Sys :=
  match s.userState with
  | none => s
  | some us =>
    let s1 := cancelTask us.timer_task s
    let s2 := cancelTask us.ai_task s1
    let s3 := stopTyping s2
    let us1 := { us with pending_messages := ([] : List String), prepared_response := none }
    { s3 with userState := some us1 }

/-- Method `mode_command`: lazily create the state, cancel all pending
operations, set the new mode, and reply with the confirmation string. -/
def mode_command (m : BotMode) (s : Sys) : Sys × String :=
  let s1 := getOrCreate s
  let s2 := cancel_user_operations s1
  let s3 :=
    match s2.userState with
    | none => s2
    | some us => { s2 with userState := some { us with mode := m } }
  (s3, "Switched to **" ++ m.value ++ "** mode! " ++ modeDescription m)

/-- Default coordinator state for a user already initialised in mode `m`
with an idle turn (fresh `UserState` except the mode). -/
def initSys (m : BotMode) : Sys := { userState := some { mode := m } }

/-- A completion client that always succeeds, replying `f prompt`. -/
def groqOk (f : String → String) : String → Option String := fun p => some (f p)

/-- One arrival of a burst, followed (when `p.2` is true, parallel mode) by
the freshly created generation task running to completion before the
next event. -/
def burstStep (groq : String → Option String) (p : String × Bool) (s : Sys) : Sys :=
  let s1 := handle_message p.1 s
  if p.2 then
    match s1.userState with
    | some us =>
      match us.ai_task with
      | some i => aiComplete groq i s1
      | none => s1
    | none => s1
  else s1

/-- A contiguous burst: the arrivals in `msgs` land while the window timer
of the previous arrival is still pending (each less than `W` after the
previous), interleaved per `sched` with generation-task completions;
then the last window timer fires. -/
def runTurn (groq : String → Option String) (msgs : List String) (sched : List Bool)
    (s : Sys) : Sys :=
  let s1 := (msgs.zip sched).foldl (fun s p => burstStep groq p s) s
  match s1.userState with
  | some us =>
    match us.timer_task with
    | some t => fireTimer groq true t s1
    | none => s1
  | none => s1

/-- The terminal reply of a burst whose joined fragments are `j`, per mode
(completion client `groqOk f` assumed to succeed). -/
def burstReply (f : String → String) (m : BotMode) (j : String) : String :=
  match m with
  | .single => f j
  | .parallel => f j
  | .stitch => "You said: " ++ j

/-- Mid-burst invariant: after at least one arrival of the current turn the
pending fragments are `pend`, a live window timer exists, no dispatch has
happened since the turn began (`tr0` is the whole send history), live
task ids are below the allocator counter, and in parallel mode the
current generation task is either still live or has staged the reply for
exactly the current pending contents. -/
def TurnInv (f : String → String) (m : BotMode) (pend : List String) (tr0 : List String)
    (s : Sys) : Prop :=
  ∃ us t, s.userState = some us ∧ us.mode = m ∧ us.pending_messages = pend ∧
    us.timer_task = some t ∧ t ∈ s.live ∧ sends s.trace = tr0 ∧
    (∀ i ∈ s.live, i < s.nextId) ∧
    (m = .parallel → ∃ a, us.ai_task = some a ∧ a ≠ t ∧
        (a ∈ s.live ∨ us.prepared_response = some (f (joinSp pend)))) ∧
    (m ≠ .parallel → us.ai_task = none)

/-- Completion-client oracle of the C2 scenario: succeeds on the prompt
`"m1"`, fails on the joined prompt `"m1 m2"`. -/
def groqC2 : String → Option String := fun p => if p = "m1" then some "r1" else none

/-- State of the C2 scenario right before the second window expiry: in
parallel mode, `"m1"` arrived, its generation completed and staged
`"r1"`, then `"m2"` arrived (task 2 is the new generation task, task 3
the new window timer). -/
def c2state : Sys :=
  handle_message "m2" (aiComplete groqC2 0 (handle_message "m1" (initSys .parallel)))

/-- Turn State of the example eager-mode scenario: pending fragment `"a"`,
generation task id 0, window timer id 1. -/
def c3us : UserState :=
  { mode := .parallel, pending_messages := ["a"], timer_task := some 1, ai_task := some 0 }

/-- Example eager-mode state with an in-flight generation task (id 0) and
an in-flight window timer (id 1) over pending fragment `"a"`. -/
def c3state : Sys :=
  { userState := some c3us, typing := true, live := [0, 1], nextId := 2 }

/-- Example completion client used by witnesses: echoes the prompt. -/
def groqEcho : String → Option String := fun p => some ("re: " ++ p)

/-- Turn State of the example batched-mode scenario: pending fragment
`"hello"`, window timer id 0. -/
def c5us : UserState :=
  { mode := .single, pending_messages := ["hello"], timer_task := some 0 }

/-- Example batched-mode state with a live window timer (id 0) over pending
fragment `"hello"`. -/
def c5state : Sys :=
  { userState := some c5us, typing := true, live := [0], nextId := 1 }

/-- Example completion client that always fails. -/
def groqFail : String → Option String := fun _ => none

/-- Turn State of the example echo-mode scenario: pending fragments
`["a", "b"]`, window timer id 0. -/
def c9us : UserState :=
  { mode := .stitch, pending_messages := ["a", "b"], timer_task := some 0 }

/-- Example echo-mode state with a live window timer (id 0) over pending
fragments `["a", "b"]`. -/
def c9state : Sys :=
  { userState := some c9us, typing := true, live := [0], nextId := 1 }


/-- Turn State of the C7 scenario: batched mode, one pending fragment and a
live window timer (id 0) plus a live generation task handle (id 1). -/
def c7us : UserState :=
  { mode := .single, pending_messages := ["hi"], timer_task := some 0, ai_task := some 1 }

/-- Example state with in-flight work (live tasks 0 and 1) for the init
operation. -/
def c7state : Sys :=
  { userState := some c7us, typing := true, live := [0, 1], nextId := 2 }
theorem sends_append (t1 t2 : List Act) : sends (t1 ++ t2) = sends t1 ++ sends t2 := by
  simp [sends]

@[simp] theorem startTyping_userState (s : Sys) : (startTyping s).userState = s.userState := by
  unfold startTyping emit; split <;> rfl

@[simp] theorem startTyping_live (s : Sys) : (startTyping s).live = s.live := by
  unfold startTyping emit; split <;> rfl

@[simp] theorem startTyping_cancelled (s : Sys) : (startTyping s).cancelled = s.cancelled := by
  unfold startTyping emit; split <;> rfl

@[simp] theorem startTyping_nextId (s : Sys) : (startTyping s).nextId = s.nextId := by
  unfold startTyping emit; split <;> rfl

@[simp] theorem startTyping_typing (s : Sys) : (startTyping s).typing = true := by
  unfold startTyping emit; split <;> simp_all

@[simp] theorem sends_startTyping (s : Sys) : sends (startTyping s).trace = sends s.trace := by
  unfold startTyping emit; split <;> simp [sends_append, sends]

@[simp] theorem stopTyping_userState (s : Sys) : (stopTyping s).userState = s.userState := rfl

@[simp] theorem stopTyping_live (s : Sys) : (stopTyping s).live = s.live := rfl

@[simp] theorem stopTyping_cancelled (s : Sys) : (stopTyping s).cancelled = s.cancelled := rfl

@[simp] theorem stopTyping_nextId (s : Sys) : (stopTyping s).nextId = s.nextId := rfl

@[simp] theorem stopTyping_trace (s : Sys) : (stopTyping s).trace = s.trace := rfl

@[simp] theorem stopTyping_typing (s : Sys) : (stopTyping s).typing = false := rfl

@[simp] theorem emit_userState (a : Act) (s : Sys) : (emit a s).userState = s.userState := rfl

@[simp] theorem emit_live (a : Act) (s : Sys) : (emit a s).live = s.live := rfl

@[simp] theorem emit_cancelled (a : Act) (s : Sys) : (emit a s).cancelled = s.cancelled := rfl

@[simp] theorem emit_nextId (a : Act) (s : Sys) : (emit a s).nextId = s.nextId := rfl

@[simp] theorem emit_typing (a : Act) (s : Sys) : (emit a s).typing = s.typing := rfl

@[simp] theorem emit_trace (a : Act) (s : Sys) : (emit a s).trace = s.trace ++ [a] := rfl

@[simp] theorem cancelTask_userState (o : Option Nat) (s : Sys) :
    (cancelTask o s).userState = s.userState := by
  unfold cancelTask; cases o <;> simp <;> split <;> rfl

@[simp] theorem cancelTask_typing (o : Option Nat) (s : Sys) :
    (cancelTask o s).typing = s.typing := by
  unfold cancelTask; cases o <;> simp <;> split <;> rfl

@[simp] theorem cancelTask_trace (o : Option Nat) (s : Sys) :
    (cancelTask o s).trace = s.trace := by
  unfold cancelTask; cases o <;> simp <;> split <;> rfl

@[simp] theorem cancelTask_nextId (o : Option Nat) (s : Sys) :
    (cancelTask o s).nextId = s.nextId := by
  unfold cancelTask; cases o <;> simp <;> split <;> rfl

@[simp] theorem finishTask_userState (i : Nat) (s : Sys) :
    (finishTask i s).userState = s.userState := rfl

@[simp] theorem finishTask_typing (i : Nat) (s : Sys) : (finishTask i s).typing = s.typing := rfl

@[simp] theorem finishTask_trace (i : Nat) (s : Sys) : (finishTask i s).trace = s.trace := rfl

@[simp] theorem finishTask_cancelled (i : Nat) (s : Sys) :
    (finishTask i s).cancelled = s.cancelled := rfl

@[simp] theorem finishTask_nextId (i : Nat) (s : Sys) : (finishTask i s).nextId = s.nextId := rfl

@[simp] theorem finishTask_live (i : Nat) (s : Sys) : (finishTask i s).live = s.live.erase i := rfl


attribute [simp] sends_append

@[simp] theorem sends_nil : sends [] = [] := rfl

@[simp] theorem sends_cons_send (t : String) (tr : List Act) :
    sends (Act.send t :: tr) = t :: sends tr := rfl

@[simp] theorem sends_cons_sleep (n : Nat) (tr : List Act) :
    sends (Act.sleepFor n :: tr) = sends tr := rfl

@[simp] theorem sends_cons_groq (p : String) (tr : List Act) :
    sends (Act.groqCall p :: tr) = sends tr := rfl

@[simp] theorem sends_cons_chat (tr : List Act) :
    sends (Act.chatAction :: tr) = sends tr := rfl

theorem cancelTask_some_live (i : Nat) (s : Sys) (h : i ∈ s.live) :
    cancelTask (some i) s = { s with live := s.live.erase i, cancelled := i :: s.cancelled } := by
  unfold cancelTask
  simp [h]

theorem cancelTask_not_live (i : Nat) (s : Sys) (h : i ∉ s.live) :
    cancelTask (some i) s = s := by
  unfold cancelTask
  simp [h]

theorem cancelTask_live_subset (o : Option Nat) (s : Sys) : (cancelTask o s).live ⊆ s.live := by
  cases o with
  | none => exact fun j hj => hj
  | some i =>
    by_cases h : i ∈ s.live
    · rw [cancelTask_some_live i s h]
      exact fun j hj => List.mem_of_mem_erase hj
    · rw [cancelTask_not_live i s h]
      exact fun j hj => hj

theorem generate_true_ok (groq : String → Option String) (s : Sys) (us : UserState) (r : String)
    (h1 : s.userState = some us) (h2 : us.pending_messages ≠ [])
    (h3 : groq (joinSp us.pending_messages) = some r) :
    (generate groq true s).userState = some { us with prepared_response := some r } ∧
    (generate groq true s).live = s.live ∧
    (generate groq true s).cancelled = s.cancelled ∧
    (generate groq true s).nextId = s.nextId ∧
    (generate groq true s).typing = true ∧
    sends (generate groq true s).trace = sends s.trace := by
  unfold generate
  rw [h1]
  simp [h2, h3]

theorem generate_false_ok (groq : String → Option String) (s : Sys) (us : UserState) (r : String)
    (h1 : s.userState = some us) (h2 : us.pending_messages ≠ [])
    (h3 : groq (joinSp us.pending_messages) = some r) :
    (generate groq false s).userState = some { us with pending_messages := [] } ∧
    (generate groq false s).live = s.live ∧
    (generate groq false s).cancelled = s.cancelled ∧
    (generate groq false s).nextId = s.nextId ∧
    (generate groq false s).typing = false ∧
    sends (generate groq false s).trace = sends s.trace ++ [r] := by
  unfold generate
  rw [h1]
  simp [h2, h3]

theorem generate_fail (groq : String → Option String) (w : Bool) (s : Sys) (us : UserState)
    (h1 : s.userState = some us) (h2 : us.pending_messages ≠ [])
    (h3 : groq (joinSp us.pending_messages) = none) :
    (generate groq w s).userState = some { us with pending_messages := [] } ∧
    (generate groq w s).live = s.live ∧
    (generate groq w s).cancelled = s.cancelled ∧
    (generate groq w s).nextId = s.nextId ∧
    (generate groq w s).typing = false ∧
    sends (generate groq w s).trace = sends s.trace ++ [fallback] := by
  unfold generate
  rw [h1]
  simp [h2, h3]

theorem generate_empty (groq : String → Option String) (w : Bool) (s : Sys) (us : UserState)
    (h1 : s.userState = some us) (h2 : us.pending_messages = []) :
    generate groq w s = s := by
  unfold generate
  rw [h1]
  simp [h2]

theorem send_prepared_some (s : Sys) (us : UserState) (r : String)
    (h1 : s.userState = some us) (h2 : us.prepared_response = some r) :
    (send_prepared_response s).userState =
      some { us with pending_messages := [], prepared_response := none } ∧
    (send_prepared_response s).live = s.live ∧
    (send_prepared_response s).cancelled = s.cancelled ∧
    (send_prepared_response s).nextId = s.nextId ∧
    (send_prepared_response s).typing = false ∧
    sends (send_prepared_response s).trace = sends s.trace ++ [r] := by
  unfold send_prepared_response
  rw [h1]
  simp [h2]

theorem send_prepared_none (s : Sys) (us : UserState)
    (h1 : s.userState = some us) (h2 : us.prepared_response = none) :
    send_prepared_response s = s := by
  unfold send_prepared_response
  rw [h1]
  simp [h2]

theorem send_stitched_ok (s : Sys) (us : UserState)
    (h1 : s.userState = some us) (h2 : us.pending_messages ≠ []) :
    (send_stitched_response true s).userState = some { us with pending_messages := [] } ∧
    (send_stitched_response true s).live = s.live ∧
    (send_stitched_response true s).cancelled = s.cancelled ∧
    (send_stitched_response true s).nextId = s.nextId ∧
    (send_stitched_response true s).typing = false ∧
    (send_stitched_response true s).trace =
      (startTyping s).trace ++ [Act.sleepFor 1,
        Act.send ("You said: " ++ joinSp us.pending_messages)] := by
  unfold send_stitched_response
  rw [h1]
  simp [h2, emit]

theorem send_stitched_fail (s : Sys) (us : UserState)
    (h1 : s.userState = some us) (h2 : us.pending_messages ≠ []) :
    (send_stitched_response false s).userState = some us ∧
    (send_stitched_response false s).live = s.live ∧
    (send_stitched_response false s).cancelled = s.cancelled ∧
    (send_stitched_response false s).nextId = s.nextId ∧
    (send_stitched_response false s).typing = false ∧
    sends (send_stitched_response false s).trace = sends s.trace := by
  unfold send_stitched_response
  rw [h1]
  simp [h2, h1]

theorem getOrCreate_some (s : Sys) (us : UserState) (h : s.userState = some us) :
    getOrCreate s = s := by
  unfold getOrCreate
  rw [h]

@[simp] theorem spawn_fst (s : Sys) : (spawn s).1 = s.nextId := rfl

@[simp] theorem spawn_snd_userState (s : Sys) : (spawn s).2.userState = s.userState := rfl

@[simp] theorem spawn_snd_live (s : Sys) : (spawn s).2.live = s.nextId :: s.live := rfl

@[simp] theorem spawn_snd_nextId (s : Sys) : (spawn s).2.nextId = s.nextId + 1 := rfl

@[simp] theorem spawn_snd_cancelled (s : Sys) : (spawn s).2.cancelled = s.cancelled := rfl

@[simp] theorem spawn_snd_trace (s : Sys) : (spawn s).2.trace = s.trace := rfl

@[simp] theorem spawn_snd_typing (s : Sys) : (spawn s).2.typing = s.typing := rfl

@[simp] theorem iteTyping_userState (c : Prop) [Decidable c] (s : Sys) :
    (if c then startTyping s else s).userState = s.userState := by
  split <;> simp

@[simp] theorem iteTyping_live (c : Prop) [Decidable c] (s : Sys) :
    (if c then startTyping s else s).live = s.live := by
  split <;> simp

@[simp] theorem iteTyping_cancelled (c : Prop) [Decidable c] (s : Sys) :
    (if c then startTyping s else s).cancelled = s.cancelled := by
  split <;> simp

@[simp] theorem iteTyping_nextId (c : Prop) [Decidable c] (s : Sys) :
    (if c then startTyping s else s).nextId = s.nextId := by
  split <;> simp

@[simp] theorem iteTyping_sends (c : Prop) [Decidable c] (s : Sys) :
    sends (if c then startTyping s else s).trace = sends s.trace := by
  split <;> simp

theorem handle_single_shape (s : Sys) (us : UserState) (h1 : s.userState = some us) :
    ∃ l, (handle_single s).userState = some { us with timer_task := some s.nextId } ∧
      (handle_single s).nextId = s.nextId + 1 ∧
      (handle_single s).live = s.nextId :: l ∧ l ⊆ s.live ∧
      sends (handle_single s).trace = sends s.trace := by
  unfold handle_single
  rw [h1]
  refine ⟨(cancelTask us.timer_task
    (if us.pending_messages.length = 1 then startTyping s else s)).live, ?_, ?_, ?_, ?_, ?_⟩
  · simp [spawn]
  · simp [spawn]
  · simp [spawn]
  · intro j hj
    have h2 := cancelTask_live_subset us.timer_task
      (if us.pending_messages.length = 1 then startTyping s else s) hj
    simpa using h2
  · simp [spawn]

theorem handle_stitch_shape (s : Sys) (us : UserState) (h1 : s.userState = some us) :
    ∃ l, (handle_stitch s).userState = some { us with timer_task := some s.nextId } ∧
      (handle_stitch s).nextId = s.nextId + 1 ∧
      (handle_stitch s).live = s.nextId :: l ∧ l ⊆ s.live ∧
      sends (handle_stitch s).trace = sends s.trace := by
  unfold handle_stitch
  rw [h1]
  refine ⟨(cancelTask us.timer_task
    (if us.pending_messages.length = 1 then startTyping s else s)).live, ?_, ?_, ?_, ?_, ?_⟩
  · simp [spawn]
  · simp [spawn]
  · simp [spawn]
  · intro j hj
    have h2 := cancelTask_live_subset us.timer_task
      (if us.pending_messages.length = 1 then startTyping s else s) hj
    simpa using h2
  · simp [spawn]

theorem cancelTask_cancelled_mono (o : Option Nat) (s : Sys) (i : Nat)
    (h : i ∈ s.cancelled) : i ∈ (cancelTask o s).cancelled := by
  cases o with
  | none => exact h
  | some j =>
    by_cases hj : j ∈ s.live
    · rw [cancelTask_some_live j s hj]
      exact List.mem_cons_of_mem _ h
    · rw [cancelTask_not_live j s hj]
      exact h

theorem handle_parallel_shape (s : Sys) (us : UserState) (h1 : s.userState = some us) :
    ∃ l, (handle_parallel s).userState =
        some { us with timer_task := some (s.nextId + 1), ai_task := some s.nextId } ∧
      (handle_parallel s).nextId = s.nextId + 2 ∧
      (handle_parallel s).live = (s.nextId + 1) :: s.nextId :: l ∧ l ⊆ s.live ∧
      sends (handle_parallel s).trace = sends s.trace ∧
      (∀ i, us.ai_task = some i → i ∈ s.live → i ∈ (handle_parallel s).cancelled) ∧
      (∀ i, us.timer_task = some i → i ∈ s.live → i ∈ (handle_parallel s).cancelled) := by
  unfold handle_parallel
  rw [h1]
  refine ⟨(cancelTask us.timer_task (cancelTask us.ai_task
    (if us.pending_messages.length = 1 then startTyping s else s))).live,
    ?_, ?_, ?_, ?_, ?_, ?_, ?_⟩
  · simp [spawn]
  · simp [spawn]
  · simp [spawn]
  · intro j hj
    have h2 := cancelTask_live_subset us.timer_task
      (cancelTask us.ai_task (if us.pending_messages.length = 1 then startTyping s else s)) hj
    have h3 := cancelTask_live_subset us.ai_task
      (if us.pending_messages.length = 1 then startTyping s else s) h2
    simpa using h3
  · simp [spawn]
  · intro i hi hlive
    simp only [spawn]
    rw [hi]
    set s0 := if us.pending_messages.length = 1 then startTyping s else s with hs0
    have hl : i ∈ s0.live := by simp [hs0, hlive]
    rw [cancelTask_some_live i s0 hl]
    exact cancelTask_cancelled_mono _ _ _ (by simp)
  · intro i hi hlive
    simp only [spawn]
    rw [hi]
    set s0 := if us.pending_messages.length = 1 then startTyping s else s with hs0
    have hl : i ∈ s0.live := by simp [hs0, hlive]
    by_cases hia : us.ai_task = some i
    · rw [hia, cancelTask_some_live i s0 hl]
      exact cancelTask_cancelled_mono _ _ _ (by simp)
    · have h2 : i ∈ (cancelTask us.ai_task s0).live := by
        cases hat : us.ai_task with
        | none => simpa [cancelTask] using hl
        | some j =>
          have hij : i ≠ j := by
            intro h
            exact hia (by rw [hat, h])
          by_cases hj : j ∈ s0.live
          · rw [cancelTask_some_live j s0 hj]
            exact List.mem_erase_of_ne hij |>.mpr hl
          · rw [cancelTask_not_live j s0 hj]
            exact hl
      rw [cancelTask_some_live i _ h2]
      simp

theorem handle_message_eq (s : Sys) (us : UserState) (text : String)
    (h : s.userState = some us) :
    handle_message text s =
      (match us.mode with
      | .single => handle_single { s with userState := some ⟨us.mode, us.pending_messages ++ [text], us.timer_task, us.ai_task, us.prepared_response⟩ }
      | .parallel => handle_parallel { s with userState := some ⟨us.mode, us.pending_messages ++ [text], us.timer_task, us.ai_task, us.prepared_response⟩ }
      | .stitch => handle_stitch { s with userState := some ⟨us.mode, us.pending_messages ++ [text], us.timer_task, us.ai_task, us.prepared_response⟩ }) := by
  unfold handle_message
  rw [getOrCreate_some s us h]
  simp only [h]


theorem burstStep_inv (f : String → String) (tr0 : List String)
    (s : Sys) (us : UserState) (msg : String) (b : Bool)
    (h1 : s.userState = some us)
    (h3 : ∀ i ∈ s.live, i < s.nextId)
    (h4 : us.mode ≠ .parallel → us.ai_task = none)
    (h5 : sends s.trace = tr0) :
    TurnInv f us.mode (us.pending_messages ++ [msg]) tr0 (burstStep (groqOk f) (msg, b) s) := by
  rcases us with ⟨mo, pend, tk, ak, pr⟩
  cases mo with
  | single =>
    have hak : ak = none := h4 (by simp)
    subst hak
    have hms : handle_message msg s =
        handle_single { s with userState := some ⟨.single, pend ++ [msg], tk, none, pr⟩ } := by
      rw [handle_message_eq s _ msg h1]
    obtain ⟨l, hU, hN, hL, hSub, hS⟩ := handle_single_shape
      { s with userState := some ⟨.single, pend ++ [msg], tk, none, pr⟩ }
      ⟨.single, pend ++ [msg], tk, none, pr⟩ rfl
    dsimp only at hU hN hL hSub hS
    have hbs : burstStep (groqOk f) (msg, b) s = handle_message msg s := by
      simp only [burstStep]
      rw [hms, hU]
      simp
    rw [hbs, hms]
    refine ⟨⟨.single, pend ++ [msg], some s.nextId, none, pr⟩, s.nextId,
      hU, rfl, rfl, rfl, ?_, ?_, ?_, ?_, ?_⟩
    · rw [hL]
      exact List.mem_cons_self _ _
    · rw [hS]
      simpa using h5
    · intro i hi
      rw [hL] at hi
      rw [hN]
      rcases List.mem_cons.mp hi with h | h
      · omega
      · have := h3 i (hSub h)
        omega
    · intro h
      exact absurd h (by simp)
    · intro _
      rfl
  | stitch =>
    have hak : ak = none := h4 (by simp)
    subst hak
    have hms : handle_message msg s =
        handle_stitch { s with userState := some ⟨.stitch, pend ++ [msg], tk, none, pr⟩ } := by
      rw [handle_message_eq s _ msg h1]
    obtain ⟨l, hU, hN, hL, hSub, hS⟩ := handle_stitch_shape
      { s with userState := some ⟨.stitch, pend ++ [msg], tk, none, pr⟩ }
      ⟨.stitch, pend ++ [msg], tk, none, pr⟩ rfl
    dsimp only at hU hN hL hSub hS
    have hbs : burstStep (groqOk f) (msg, b) s = handle_message msg s := by
      simp only [burstStep]
      rw [hms, hU]
      simp
    rw [hbs, hms]
    refine ⟨⟨.stitch, pend ++ [msg], some s.nextId, none, pr⟩, s.nextId,
      hU, rfl, rfl, rfl, ?_, ?_, ?_, ?_, ?_⟩
    · rw [hL]
      exact List.mem_cons_self _ _
    · rw [hS]
      simpa using h5
    · intro i hi
      rw [hL] at hi
      rw [hN]
      rcases List.mem_cons.mp hi with h | h
      · omega
      · have := h3 i (hSub h)
        omega
    · intro h
      exact absurd h (by simp)
    · intro _
      rfl
  | parallel =>
    have hms : handle_message msg s =
        handle_parallel { s with userState := some ⟨.parallel, pend ++ [msg], tk, ak, pr⟩ } := by
      rw [handle_message_eq s _ msg h1]
    obtain ⟨l, hU, hN, hL, hSub, hS, _, _⟩ := handle_parallel_shape
      { s with userState := some ⟨.parallel, pend ++ [msg], tk, ak, pr⟩ }
      ⟨.parallel, pend ++ [msg], tk, ak, pr⟩ rfl
    dsimp only at hU hN hL hSub hS
    cases b with
    | false =>
      have hbs : burstStep (groqOk f) (msg, false) s = handle_message msg s := by
        simp only [burstStep]
        simp
      rw [hbs, hms]
      refine ⟨⟨.parallel, pend ++ [msg], some (s.nextId + 1), some s.nextId, pr⟩,
        s.nextId + 1, hU, rfl, rfl, rfl, ?_, ?_, ?_, ?_, ?_⟩
      · rw [hL]
        exact List.mem_cons_self _ _
      · rw [hS]
        simpa using h5
      · intro i hi
        rw [hL] at hi
        rw [hN]
        rcases List.mem_cons.mp hi with h | h
        · omega
        · rcases List.mem_cons.mp h with h' | h'
          · omega
          · have := h3 i (hSub h')
            omega
      · intro _
        refine ⟨s.nextId, rfl, by omega, ?_⟩
        left
        rw [hL]
        exact List.mem_cons_of_mem _ (List.mem_cons_self _ _)
      · intro h
        exact absurd rfl h
    | true =>
      have hmem : s.nextId ∈ (handle_message msg s).live := by
        rw [hms, hL]
        exact List.mem_cons_of_mem _ (List.mem_cons_self _ _)
      have hbs : burstStep (groqOk f) (msg, true) s =
          aiComplete (groqOk f) s.nextId (handle_message msg s) := by
        simp only [burstStep]
        rw [hms, hU]
        simp
      obtain ⟨gU, gL, gC, gN, _, gS⟩ := generate_true_ok (groqOk f) (handle_message msg s)
        ⟨.parallel, pend ++ [msg], some (s.nextId + 1), some s.nextId, pr⟩
        (f (joinSp (pend ++ [msg])))
        (by rw [hms]; exact hU) (by simp) rfl
      dsimp only at gU gL gC gN gS
      have hac : aiComplete (groqOk f) s.nextId (handle_message msg s) =
          finishTask s.nextId (generate (groqOk f) true (handle_message msg s)) := by
        unfold aiComplete
        rw [if_pos hmem]
      rw [hbs, hac]
      refine ⟨⟨.parallel, pend ++ [msg], some (s.nextId + 1), some s.nextId,
          some (f (joinSp (pend ++ [msg])))⟩, s.nextId + 1,
        by rw [finishTask_userState, gU], rfl, rfl, rfl, ?_, ?_, ?_, ?_, ?_⟩
      · rw [finishTask_live, gL, hms, hL]
        rw [List.erase_cons]
        simp [Nat.succ_ne_self]
      · rw [finishTask_trace, gS, hms, hS]
        simpa using h5
      · intro i hi
        rw [finishTask_live, gL, hms, hL, List.erase_cons] at hi
        simp [Nat.succ_ne_self] at hi
        rw [finishTask_nextId, gN, hms, hN]
        rcases hi with h | h
        · omega
        · have hsl := hSub h
          have := h3 i hsl
          omega
      · intro _
        exact ⟨s.nextId, rfl, by omega, Or.inr rfl⟩
      · intro h
        exact absurd rfl h

theorem burstFold_inv (f : String → String) (m : BotMode) (tr0 : List String) :
    ∀ (msgs : List String) (sched : List Bool) (pend : List String) (s : Sys),
      sched.length = msgs.length → TurnInv f m pend tr0 s →
      TurnInv f m (pend ++ msgs) tr0
        ((msgs.zip sched).foldl (fun s p => burstStep (groqOk f) p s) s) := by
  intro msgs
  induction msgs with
  | nil =>
    intro sched pend s hlen h
    simpa using h
  | cons msg rest ih =>
    intro sched pend s hlen h
    cases sched with
    | nil => simp at hlen
    | cons b bs =>
      obtain ⟨us, t, hU, hMode, hPend, hTk, hTl, hS, hB, hPar, hNPar⟩ := h
      have hyp4 : us.mode ≠ .parallel → us.ai_task = none := by
        intro hm
        exact hNPar (hMode ▸ hm)
      have step := burstStep_inv f tr0 s us msg b hU hB hyp4 hS
      rw [hMode, hPend] at step
      have hlen2 : bs.length = rest.length := by simpa using hlen
      have hres := ih bs (pend ++ [msg]) _ hlen2 step
      rw [List.append_assoc] at hres
      simpa using hres

theorem turn_expiry (f : String → String) (m : BotMode) (pend : List String)
    (tr0 : List String) (s : Sys) (h : TurnInv f m pend tr0 s) (hne : pend ≠ []) :
    ∃ us t, s.userState = some us ∧ us.timer_task = some t ∧
      sends (fireTimer (groqOk f) true t s).trace = tr0 ++ [burstReply f m (joinSp pend)] ∧
      (∃ us2, (fireTimer (groqOk f) true t s).userState = some us2 ∧
        us2.pending_messages = [] ∧ (m = .parallel → us2.prepared_response = none)) ∧
      (fireTimer (groqOk f) true t s).typing = false := by
  obtain ⟨us, t, hU, hMode, hPend, hTk, hTl, hS, hB, hPar, hNPar⟩ := h
  have hfire : fireTimer (groqOk f) true t s = batch_timer_body (groqOk f) true (finishTask t s) := by
    unfold fireTimer
    rw [if_pos hTl]
  have hU2 : (finishTask t s).userState = some us := by rw [finishTask_userState, hU]
  have hPend2 : us.pending_messages ≠ [] := by rw [hPend]; exact hne
  refine ⟨us, t, hU, hTk, ?_⟩
  cases m with
  | single =>
    have hbody : batch_timer_body (groqOk f) true (finishTask t s) =
        generate (groqOk f) false (finishTask t s) := by
      unfold batch_timer_body
      rw [hU2]
      dsimp only
      rw [hMode]
    obtain ⟨gU, _, _, _, gT, gS⟩ := generate_false_ok (groqOk f) (finishTask t s) us
      (f (joinSp us.pending_messages)) hU2 hPend2 rfl
    rw [hfire, hbody]
    refine ⟨?_, ⟨_, gU, rfl, ?_⟩, gT⟩
    · rw [gS, finishTask_trace, hS, hPend]
      rfl
    · intro hcon
      cases hcon
  | stitch =>
    have hbody : batch_timer_body (groqOk f) true (finishTask t s) =
        send_stitched_response true (finishTask t s) := by
      unfold batch_timer_body
      rw [hU2]
      dsimp only
      rw [hMode]
    obtain ⟨gU, _, _, _, gT, gTr⟩ := send_stitched_ok (finishTask t s) us hU2 hPend2
    rw [hfire, hbody]
    refine ⟨?_, ⟨_, gU, rfl, ?_⟩, gT⟩
    · rw [gTr]
      simp [hS, hPend, burstReply]
    · intro hcon
      cases hcon
  | parallel =>
    obtain ⟨a, hA, hAne, hDisj⟩ := hPar rfl
    by_cases hal : a ∈ s.live
    · have hal2 : a ∈ (finishTask t s).live := by
        rw [finishTask_live]
        exact (List.mem_erase_of_ne hAne).mpr hal
      have hbody : batch_timer_body (groqOk f) true (finishTask t s) =
          send_prepared_response
            (finishTask a (generate (groqOk f) true (finishTask t s))) := by
        unfold batch_timer_body
        rw [hU2]
        dsimp only
        rw [hMode]
        dsimp only
        rw [hA]
        dsimp only
        rw [if_pos hal2]
      obtain ⟨gU, _, _, _, _, gS⟩ := generate_true_ok (groqOk f) (finishTask t s) us
        (f (joinSp us.pending_messages)) hU2 hPend2 rfl
      have gU2 : (finishTask a (generate (groqOk f) true (finishTask t s))).userState =
          some { us with prepared_response := some (f (joinSp us.pending_messages)) } := by
        rw [finishTask_userState, gU]
      obtain ⟨pU, _, _, _, pT, pS⟩ := send_prepared_some _ _ _ gU2 rfl
      rw [hfire, hbody]
      refine ⟨?_, ⟨_, pU, rfl, fun _ => rfl⟩, pT⟩
      · rw [pS, finishTask_trace, gS, finishTask_trace, hS, hPend]
        rfl
    · have hprep : us.prepared_response = some (f (joinSp pend)) := by
        rcases hDisj with h | h
        · exact absurd h hal
        · exact h
      have hal2 : a ∉ (finishTask t s).live := by
        rw [finishTask_live]
        intro hcon
        exact hal (List.mem_of_mem_erase hcon)
      have hbody : batch_timer_body (groqOk f) true (finishTask t s) =
          send_prepared_response (finishTask t s) := by
        unfold batch_timer_body
        rw [hU2]
        dsimp only
        rw [hMode]
        dsimp only
        rw [hA]
        dsimp only
        rw [if_neg hal2]
      obtain ⟨pU, _, _, _, pT, pS⟩ := send_prepared_some (finishTask t s) us
        (f (joinSp pend)) hU2 hprep
      rw [hfire, hbody]
      refine ⟨?_, ⟨_, pU, rfl, fun _ => rfl⟩, pT⟩
      · rw [pS, finishTask_trace, hS]
        rfl

theorem runTurn_shape (f : String → String) (msg : String) (rest : List String)
    (b : Bool) (bs : List Bool) (s : Sys) (us : UserState)
    (hlen : bs.length = rest.length)
    (h1 : s.userState = some us)
    (h3 : ∀ i ∈ s.live, i < s.nextId)
    (h4 : us.mode ≠ .parallel → us.ai_task = none) :
    sends (runTurn (groqOk f) (msg :: rest) (b :: bs) s).trace =
      sends s.trace ++ [burstReply f us.mode (joinSp (us.pending_messages ++ msg :: rest))] ∧
    (∃ us2, (runTurn (groqOk f) (msg :: rest) (b :: bs) s).userState = some us2 ∧
      us2.pending_messages = []) ∧
    (runTurn (groqOk f) (msg :: rest) (b :: bs) s).typing = false := by
  have step := burstStep_inv f (sends s.trace) s us msg b h1 h3 h4 rfl
  have fold := burstFold_inv f us.mode (sends s.trace) rest bs
    (us.pending_messages ++ [msg]) _ hlen step
  have hne2 : (us.pending_messages ++ [msg]) ++ rest ≠ [] := by simp
  obtain ⟨usF, t, hUF, hTkF, hSends, hUS2, hTyp⟩ :=
    turn_expiry f us.mode ((us.pending_messages ++ [msg]) ++ rest) (sends s.trace) _ fold hne2
  have hrt : runTurn (groqOk f) (msg :: rest) (b :: bs) s =
      fireTimer (groqOk f) true t
        ((rest.zip bs).foldl (fun s p => burstStep (groqOk f) p s)
          (burstStep (groqOk f) (msg, b) s)) := by
    unfold runTurn
    simp only [List.zip_cons_cons, List.foldl_cons]
    rw [hUF]
    dsimp only
    rw [hTkF]
  rw [hrt]
  refine ⟨?_, ?_, hTyp⟩
  · rw [hSends, List.append_assoc]
    rfl
  · obtain ⟨us2, hA, hBp, _⟩ := hUS2
    exact ⟨us2, hA, hBp⟩

theorem startTyping_trace (s : Sys) :
    (startTyping s).trace = s.trace ++ (if s.typing then [] else [Act.chatAction]) := by
  unfold startTyping
  split <;> simp

/-- C1: in Eager (parallel) mode, a generation task cancelled by a new
arrival or mode switch has no observable effect: whichever suspension
point the cancellation lands on, it writes no `prepared_response`
(staged reply), completes no outbound dispatch, and leaves the whole
Turn State record unchanged (only the typing-indicator set may be
cleared). -/
theorem c1_cancelled_generation_no_effect :
    ∀ (p : Fin 3) (s : Sys),
      (generateCancelled p s).userState = s.userState ∧
      sends (generateCancelled p s).trace = sends s.trace := by
  intro p s
  fin_cases p
  · exact ⟨rfl, rfl⟩
  · exact ⟨rfl, rfl⟩
  · cases h : s.userState with
    | none => simp [generateCancelled, h]
    | some us =>
      by_cases hp : us.pending_messages = []
      · simp [generateCancelled, h, hp]
      · simp [generateCancelled, h, hp]

/-- C5: in Batched (single) mode, when the completion client fails at
window expiry, the turn dispatches exactly the fixed fallback apology,
clears `pending_messages`, and leaves the typing indicator off; the
failure is absorbed (the model of the handler is total). -/
theorem c5_batched_completion_failure (groq : String → Option String) (s : Sys)
    (us : UserState) (t : Nat)
    (h1 : s.userState = some us) (h2 : us.mode = .single)
    (h3 : us.timer_task = some t) (h4 : t ∈ s.live)
    (h5 : us.pending_messages ≠ [])
    (h6 : groq (joinSp us.pending_messages) = none) :
    sends (fireTimer groq true t s).trace = sends s.trace ++ [fallback] ∧
    (∃ us2, (fireTimer groq true t s).userState = some us2 ∧ us2.pending_messages = []) ∧
    (fireTimer groq true t s).typing = false := by
  have hfire : fireTimer groq true t s = batch_timer_body groq true (finishTask t s) := by
    unfold fireTimer
    rw [if_pos h4]
  have hU2 : (finishTask t s).userState = some us := by rw [finishTask_userState, h1]
  have hbody : batch_timer_body groq true (finishTask t s) =
      generate groq false (finishTask t s) := by
    unfold batch_timer_body
    rw [hU2]
    dsimp only
    rw [h2]
  obtain ⟨gU, _, _, _, gT, gS⟩ := generate_fail groq false (finishTask t s) us hU2 h5 h6
  rw [hfire, hbody]
  exact ⟨by rw [gS, finishTask_trace], ⟨_, gU, rfl⟩, gT⟩

/-- C5 witness: the concrete batched-mode state `c5state` (pending
`["hello"]`, live timer 0) with the always-failing client. -/
theorem c5_batched_completion_failure_witness :
    (c5state.userState = some c5us ∧ c5us.mode = .single ∧ c5us.timer_task = some 0 ∧
      0 ∈ c5state.live ∧ c5us.pending_messages ≠ [] ∧
      groqFail (joinSp c5us.pending_messages) = none) ∧
    (sends (fireTimer groqFail true 0 c5state).trace = sends c5state.trace ++ [fallback] ∧
      (∃ us2, (fireTimer groqFail true 0 c5state).userState = some us2 ∧
        us2.pending_messages = []) ∧
      (fireTimer groqFail true 0 c5state).typing = false) := by
  refine ⟨⟨rfl, rfl, rfl, by decide, by decide, rfl⟩, ?_⟩
  exact c5_batched_completion_failure groqFail c5state c5us 0 rfl rfl rfl
    (by decide) (by decide) rfl

/-- C8: calling the init operation twice in a row leaves the Turn State
equal to a single fresh default: default (`single`) mode, no pending
fragments, no timer or generation task handles, no staged reply — the
same state a single init produces. -/
theorem c8_init_idempotent :
    ∀ s : Sys,
      (start_command (start_command s).1).1.userState =
        some ⟨.single, [], none, none, none⟩ ∧
      (start_command (start_command s).1).1.userState = (start_command s).1.userState := by
  intro s
  exact ⟨rfl, rfl⟩

/-- C7 counterexample: the init operation (`start_command`) does not cancel
the previous in-flight work — on a state with a live window timer (id 0)
and a live generation task (id 1), both handles stay live and the
cancelled set stays empty, refuting "discarding and cancelling any
previous in-flight work". -/
theorem c7_start_does_not_cancel :
    (start_command c7state).1.cancelled = [] ∧
    0 ∈ (start_command c7state).1.live ∧ 1 ∈ (start_command c7state).1.live := by
  refine ⟨rfl, ?_, ?_⟩ <;> decide

/-- C7 (amended): the init operation replaces the user's Turn State with a
fresh default one and returns the welcome text, discarding the handles
to any in-flight timer and generation task without cancelling them (the
task pool is untouched); it has no other side effect, and a discarded
timer that later fires finds the reset state with empty pending and
dispatches nothing. -/
theorem c7_start_resets_without_cancelling (groq : String → Option String) (d : Bool) :
    ∀ s : Sys,
      (start_command s).1.userState = some ⟨.single, [], none, none, none⟩ ∧
      (start_command s).2 = welcome_message ∧
      (start_command s).1.live = s.live ∧
      (start_command s).1.cancelled = s.cancelled ∧
      (start_command s).1.trace = s.trace ∧
      (start_command s).1.typing = s.typing ∧
      ∀ i, sends (fireTimer groq d i (start_command s).1).trace =
        sends (start_command s).1.trace := by
  intro s
  refine ⟨rfl, rfl, rfl, rfl, rfl, rfl, ?_⟩
  intro i
  unfold fireTimer
  split
  · have hbody : batch_timer_body groq d (finishTask i (start_command s).1) =
        generate groq false (finishTask i (start_command s).1) := by
      unfold batch_timer_body
      rw [finishTask_userState]
      rfl
    rw [hbody, generate_empty groq false _ ⟨.single, [], none, none, none⟩
      (by rw [finishTask_userState]; rfl) rfl]
    rw [finishTask_trace]
  · rfl

/-- C2 as a code bug, shown on a concrete reachable trace: in parallel
mode, after `"m1"` arrives and its generation completes (staging
`"r1"`), a second fragment `"m2"` arrives and its generation fails at
the window expiry.  The error path of `_generate_ai_response` clears
`pending_messages` but leaves `prepared_response = "r1"` — a state with
empty pending and a leftover staged reply, violating the invariant —
and the expiry then dispatches the stale `"r1"` right after the
apology (two dispatches for one turn). -/
theorem c2_staged_reply_leak :
    (∃ us, (finishTask 2 (generate groqC2 true (finishTask 3 c2state))).userState = some us ∧
      us.pending_messages = [] ∧ us.prepared_response = some "r1") ∧
    sends (fireTimer groqC2 true 3 c2state).trace = [fallback, "r1"] := by
  refine ⟨⟨⟨.parallel, [], some 3, some 2, some "r1"⟩, ?_, rfl, rfl⟩, ?_⟩
  · rfl
  · rfl

/-- C9: in Echo-Only (stitch) mode with non-empty pending, window expiry
appends to the event trace exactly a 1-second simulated-processing
sleep followed by the dispatch of `"You said: "` plus the pending
fragments joined with single spaces (preceded by a typing signal only
if the indicator was off), leaves the typing indicator off, clears
`pending_messages`, and never invokes the completion client. -/
theorem c9_echo_expiry (groq : String → Option String) (s : Sys) (us : UserState) (t : Nat)
    (h1 : s.userState = some us) (h2 : us.mode = .stitch)
    (h3 : us.timer_task = some t) (h4 : t ∈ s.live)
    (h5 : us.pending_messages ≠ []) :
    (fireTimer groq true t s).trace =
      s.trace ++ (if s.typing then [] else [Act.chatAction]) ++
        [Act.sleepFor 1, Act.send ("You said: " ++ joinSp us.pending_messages)] ∧
    (∃ us2, (fireTimer groq true t s).userState = some us2 ∧ us2.pending_messages = []) ∧
    (fireTimer groq true t s).typing = false ∧
    (∀ p, Act.groqCall p ∈ (fireTimer groq true t s).trace → Act.groqCall p ∈ s.trace) := by
  have hfire : fireTimer groq true t s = batch_timer_body groq true (finishTask t s) := by
    unfold fireTimer
    rw [if_pos h4]
  have hU2 : (finishTask t s).userState = some us := by rw [finishTask_userState, h1]
  have hbody : batch_timer_body groq true (finishTask t s) =
      send_stitched_response true (finishTask t s) := by
    unfold batch_timer_body
    rw [hU2]
    dsimp only
    rw [h2]
  obtain ⟨gU, _, _, _, gT, gTr⟩ := send_stitched_ok (finishTask t s) us hU2 h5
  have htr : (fireTimer groq true t s).trace =
      s.trace ++ (if s.typing then [] else [Act.chatAction]) ++
        [Act.sleepFor 1, Act.send ("You said: " ++ joinSp us.pending_messages)] := by
    rw [hfire, hbody, gTr, startTyping_trace]
    simp
  refine ⟨htr, ⟨_, by rw [hfire, hbody, gU], rfl⟩, by rw [hfire, hbody, gT], ?_⟩
  intro p hp
  rw [htr] at hp
  rcases List.mem_append.mp hp with hp1 | hp1
  · rcases List.mem_append.mp hp1 with hp2 | hp2
    · exact hp2
    · by_cases hty : s.typing <;> simp [hty] at hp2
  · simp at hp1

/-- C9 witness: the concrete echo-mode state `c9state` (pending
`["a", "b"]`, typing on, live timer 0). -/
theorem c9_echo_expiry_witness :
    (c9state.userState = some c9us ∧ c9us.mode = .stitch ∧ c9us.timer_task = some 0 ∧
      0 ∈ c9state.live ∧ c9us.pending_messages ≠ []) ∧
    ((fireTimer groqFail true 0 c9state).trace =
      c9state.trace ++ (if c9state.typing then [] else [Act.chatAction]) ++
        [Act.sleepFor 1, Act.send ("You said: " ++ joinSp c9us.pending_messages)] ∧
    (∃ us2, (fireTimer groqFail true 0 c9state).userState = some us2 ∧
      us2.pending_messages = []) ∧
    (fireTimer groqFail true 0 c9state).typing = false ∧
    (∀ p, Act.groqCall p ∈ (fireTimer groqFail true 0 c9state).trace →
      Act.groqCall p ∈ c9state.trace)) := by
  refine ⟨⟨rfl, rfl, rfl, by decide, by decide⟩, ?_⟩
  exact c9_echo_expiry groqFail c9state c9us 0 rfl rfl rfl (by decide) (by decide)

/-- C10: in Echo-Only (stitch) mode, when the outbound delivery of the echo
fails, `pending_messages` is not cleared (the Turn State is exactly as
before, nothing was dispatched), and the fragments are included, in
order, at the front of the next turn's joined echo text. -/
theorem c10_echo_delivery_failure_retains_pending (f : String → String)
    (s : Sys) (us : UserState) (t : Nat) (msg : String) (rest : List String)
    (b : Bool) (bs : List Bool)
    (h1 : s.userState = some us) (h2 : us.mode = .stitch)
    (h3 : us.timer_task = some t) (h4 : t ∈ s.live)
    (h5 : us.pending_messages ≠ [])
    (h6 : ∀ i ∈ s.live, i < s.nextId)
    (h7 : us.ai_task = none)
    (hlen : bs.length = rest.length) :
    (fireTimer (groqOk f) false t s).userState = some us ∧
    sends (fireTimer (groqOk f) false t s).trace = sends s.trace ∧
    sends (runTurn (groqOk f) (msg :: rest) (b :: bs)
        (fireTimer (groqOk f) false t s)).trace =
      sends s.trace ++ ["You said: " ++ joinSp (us.pending_messages ++ msg :: rest)] := by
  have hfire : fireTimer (groqOk f) false t s =
      batch_timer_body (groqOk f) false (finishTask t s) := by
    unfold fireTimer
    rw [if_pos h4]
  have hU2 : (finishTask t s).userState = some us := by rw [finishTask_userState, h1]
  have hbody : batch_timer_body (groqOk f) false (finishTask t s) =
      send_stitched_response false (finishTask t s) := by
    unfold batch_timer_body
    rw [hU2]
    dsimp only
    rw [h2]
  obtain ⟨gU, gL, _, gN, _, gS⟩ := send_stitched_fail (finishTask t s) us hU2 h5
  have hU3 : (fireTimer (groqOk f) false t s).userState = some us := by
    rw [hfire, hbody, gU]
  have hS3 : sends (fireTimer (groqOk f) false t s).trace = sends s.trace := by
    rw [hfire, hbody, gS, finishTask_trace]
  have hB3 : ∀ i ∈ (fireTimer (groqOk f) false t s).live,
      i < (fireTimer (groqOk f) false t s).nextId := by
    intro i hi
    rw [hfire, hbody, gL, finishTask_live] at hi
    rw [hfire, hbody, gN, finishTask_nextId]
    exact h6 i (List.mem_of_mem_erase hi)
  obtain ⟨hSends, _, _⟩ := runTurn_shape f msg rest b bs
    (fireTimer (groqOk f) false t s) us hlen hU3 hB3
    (fun _ => h7)
  refine ⟨hU3, hS3, ?_⟩
  rw [hSends, hS3, h2]
  rfl

/-- C10 witness: the echo-mode state `c9state` (pending `["a", "b"]`) with
a failed first delivery, then one new arrival `"c"`. -/
theorem c10_echo_delivery_failure_witness :
    (c9state.userState = some c9us ∧ c9us.mode = .stitch ∧ c9us.timer_task = some 0 ∧
      0 ∈ c9state.live ∧ c9us.pending_messages ≠ [] ∧
      (∀ i ∈ c9state.live, i < c9state.nextId) ∧ c9us.ai_task = none ∧
      ([] : List Bool).length = ([] : List String).length) ∧
    ((fireTimer (groqOk fun p => "re: " ++ p) false 0 c9state).userState = some c9us ∧
    sends (fireTimer (groqOk fun p => "re: " ++ p) false 0 c9state).trace =
      sends c9state.trace ∧
    sends (runTurn (groqOk fun p => "re: " ++ p) ["c"] [false]
        (fireTimer (groqOk fun p => "re: " ++ p) false 0 c9state)).trace =
      sends c9state.trace ++
        ["You said: " ++ joinSp (c9us.pending_messages ++ ["c"])]) := by
  refine ⟨⟨rfl, rfl, rfl, by decide, by decide, by decide, rfl, rfl⟩, ?_⟩
  exact c10_echo_delivery_failure_retains_pending (fun p => "re: " ++ p)
    c9state c9us 0 "c" [] false [] rfl rfl rfl (by decide) (by decide) (by decide) rfl rfl

/-- C4: for every contiguous burst of arrivals (each landing before the
previous window timer fires), in every mode and for every schedule of
eager-generation completions, exactly one terminal dispatch occurs, and
its content is derived from all fragments joined with single spaces in
arrival order (the completion reply over the joined prompt in Batched
and Eager modes, the echo template over it in Echo-Only mode); pending
is empty afterwards. -/
theorem c4_burst_single_dispatch (f : String → String) (m : BotMode)
    (msg : String) (rest : List String) (b : Bool) (bs : List Bool)
    (hlen : bs.length = rest.length) :
    sends (runTurn (groqOk f) (msg :: rest) (b :: bs) (initSys m)).trace =
      [burstReply f m (joinSp (msg :: rest))] ∧
    ∃ us2, (runTurn (groqOk f) (msg :: rest) (b :: bs) (initSys m)).userState = some us2 ∧
      us2.pending_messages = [] := by
  obtain ⟨hSends, hUS, _⟩ := runTurn_shape f msg rest b bs (initSys m)
    ⟨m, [], none, none, none⟩ hlen rfl (by intro i hi; simp [initSys] at hi)
    (fun _ => rfl)
  exact ⟨by simpa using hSends, hUS⟩

/-- C4 witness: eager mode, burst `["a", "b"]` where the first generation
completes before the second arrival. -/
theorem c4_burst_single_dispatch_witness :
    ([false] : List Bool).length = (["b"] : List String).length ∧
    (sends (runTurn (groqOk fun p => "re: " ++ p) ["a", "b"] [true, false]
        (initSys .parallel)).trace =
      [burstReply (fun p => "re: " ++ p) .parallel (joinSp ["a", "b"])] ∧
    ∃ us2, (runTurn (groqOk fun p => "re: " ++ p) ["a", "b"] [true, false]
        (initSys .parallel)).userState = some us2 ∧
      us2.pending_messages = []) := by
  refine ⟨rfl, ?_⟩
  exact c4_burst_single_dispatch (fun p => "re: " ++ p) .parallel "a" ["b"] true [false] rfl

theorem cancelTask_live_nodup (o : Option Nat) (s : Sys) (h : s.live.Nodup) :
    (cancelTask o s).live.Nodup := by
  cases o with
  | none => exact h
  | some i =>
    by_cases hi : i ∈ s.live
    · rw [cancelTask_some_live i s hi]
      exact h.erase i
    · rw [cancelTask_not_live i s hi]
      exact h

theorem cancel_first_removes (o : Option Nat) (i : Nat) (s : Sys)
    (hnd : s.live.Nodup) (hi : i ∈ s.live) :
    i ∈ (cancelTask o (cancelTask (some i) s)).cancelled ∧
    i ∉ (cancelTask o (cancelTask (some i) s)).live := by
  rw [cancelTask_some_live i s hi]
  constructor
  · exact cancelTask_cancelled_mono o _ i (by simp)
  · intro hcon
    have hsub := cancelTask_live_subset o ⟨s.userState, s.typing, s.live.erase i, i :: s.cancelled, s.nextId, s.trace⟩ hcon
    exact hnd.not_mem_erase hsub

theorem cancel_second_removes (o : Option Nat) (i : Nat) (s : Sys)
    (hnd : s.live.Nodup) (hi : i ∈ s.live) :
    i ∈ (cancelTask (some i) (cancelTask o s)).cancelled ∧
    i ∉ (cancelTask (some i) (cancelTask o s)).live := by
  by_cases hmem : i ∈ (cancelTask o s).live
  · rw [cancelTask_some_live i _ hmem]
    refine ⟨by simp, ?_⟩
    intro hcon
    exact ((cancelTask_live_nodup o s hnd).not_mem_erase) hcon
  · rw [cancelTask_not_live i _ hmem]
    have hC : i ∈ (cancelTask o s).cancelled := by
      cases o with
      | none => exact absurd hi hmem
      | some j =>
        by_cases hj : j ∈ s.live
        · rw [cancelTask_some_live j s hj] at hmem ⊢
          by_cases hij : i = j
          · simp [hij]
          · exact absurd ((List.mem_erase_of_ne hij).mpr hi) hmem
        · rw [cancelTask_not_live j s hj] at hmem
          exact absurd hi hmem
    exact ⟨hC, hmem⟩

theorem cancel_ops_shape (s : Sys) (us : UserState) (h1 : s.userState = some us) :
    (cancel_user_operations s).userState =
      some ⟨us.mode, [], us.timer_task, us.ai_task, none⟩ ∧
    (cancel_user_operations s).typing = false ∧
    (cancel_user_operations s).trace = s.trace ∧
    (cancel_user_operations s).nextId = s.nextId ∧
    (cancel_user_operations s).live =
      (cancelTask us.ai_task (cancelTask us.timer_task s)).live ∧
    (cancel_user_operations s).cancelled =
      (cancelTask us.ai_task (cancelTask us.timer_task s)).cancelled := by
  unfold cancel_user_operations
  rw [h1]
  dsimp only
  refine ⟨rfl, rfl, ?_, ?_, rfl, rfl⟩
  · simp
  · simp

/-- C6: a mode change cancels the user's live window timer and generation
task (so the abandoned turn can never fire or complete — the discarded
timer and generation tasks are no-ops afterwards, hence no dispatch from
the abandoned turn), clears `pending_messages` and `prepared_response`,
stops the typing indicator, sets the new mode, and returns the
confirmation string naming the mode; for a user with no prior state it
creates a fresh state with the new mode.  (`hnd`: live task handles are
distinct, as produced by the allocator.) -/
theorem c6_mode_change (groq : String → Option String) (d : Bool) (m : BotMode) (s : Sys)
    (hnd : s.live.Nodup) :
    (mode_command m s).2 = "Switched to **" ++ m.value ++ "** mode! " ++ modeDescription m ∧
    (mode_command m s).1.typing = false ∧
    (∃ us1, (mode_command m s).1.userState = some us1 ∧ us1.mode = m ∧
      us1.pending_messages = [] ∧ us1.prepared_response = none) ∧
    (∀ us i, s.userState = some us → us.timer_task = some i → i ∈ s.live →
      i ∈ (mode_command m s).1.cancelled ∧
      fireTimer groq d i (mode_command m s).1 = (mode_command m s).1) ∧
    (∀ us i, s.userState = some us → us.ai_task = some i → i ∈ s.live →
      i ∈ (mode_command m s).1.cancelled ∧
      aiComplete groq i (mode_command m s).1 = (mode_command m s).1) ∧
    (s.userState = none → (mode_command m s).1.userState = some ⟨m, [], none, none, none⟩) := by
  cases hUS : s.userState with
  | none =>
    have hmc1 : mode_command m s =
        ({ s with userState := some ⟨m, [], none, none, none⟩, typing := false },
         "Switched to **" ++ m.value ++ "** mode! " ++ modeDescription m) := by
      unfold mode_command getOrCreate cancel_user_operations
      rw [hUS]
      rfl
    rw [hmc1]
    refine ⟨rfl, rfl, ⟨⟨m, [], none, none, none⟩, rfl, rfl, rfl, rfl⟩, ?_, ?_, fun _ => rfl⟩
    · intro us i h1' _ _
      cases h1'
    · intro us i h1' _ _
      cases h1'
  | some us =>
    obtain ⟨cU, cT, cTr, cN, cL, cC⟩ := cancel_ops_shape s us hUS
    have hgoc : getOrCreate s = s := getOrCreate_some s us hUS
    have hmc1 : (mode_command m s).1 =
        { cancel_user_operations s with
            userState := some ⟨m, [], us.timer_task, us.ai_task, none⟩ } := by
      unfold mode_command
      rw [hgoc]
      dsimp only
      rw [cU]
    have hmsg : (mode_command m s).2 =
        "Switched to **" ++ m.value ++ "** mode! " ++ modeDescription m := by
      unfold mode_command
      rfl
    refine ⟨hmsg, ?_, ?_, ?_, ?_, ?_⟩
    · rw [hmc1]
      exact cT
    · exact ⟨⟨m, [], us.timer_task, us.ai_task, none⟩, by rw [hmc1], rfl, rfl, rfl⟩
    · intro us' i h1' h2' h3'
      have hus : us = us' := by
        injection h1'
      subst hus
      rw [h2'] at cL cC
      have hfirst := cancel_first_removes us.ai_task i s hnd h3'
      have hnotlive : i ∉ (mode_command m s).1.live := by
        rw [hmc1]
        show i ∉ (cancel_user_operations s).live
        rw [cL]
        exact hfirst.2
      constructor
      · rw [hmc1]
        show i ∈ (cancel_user_operations s).cancelled
        rw [cC]
        exact hfirst.1
      · unfold fireTimer
        rw [if_neg hnotlive]
    · intro us' i h1' h2' h3'
      have hus : us = us' := by
        injection h1'
      subst hus
      rw [h2'] at cL cC
      have hsecond := cancel_second_removes us.timer_task i s hnd h3'
      have hnotlive : i ∉ (mode_command m s).1.live := by
        rw [hmc1]
        show i ∉ (cancel_user_operations s).live
        rw [cL]
        exact hsecond.2
      constructor
      · rw [hmc1]
        show i ∈ (cancel_user_operations s).cancelled
        rw [cC]
        exact hsecond.1
      · unfold aiComplete
        rw [if_neg hnotlive]
    · intro hcon
      cases hcon

/-- C6 witness: mode switch to Echo-Only on the concrete state `c3state`
(live window timer 1 and live generation task 0). -/
theorem c6_mode_change_witness :
    c3state.live.Nodup ∧
    ((mode_command .stitch c3state).2 =
      "Switched to **" ++ BotMode.stitch.value ++ "** mode! " ++ modeDescription .stitch ∧
    (mode_command .stitch c3state).1.typing = false ∧
    (∃ us1, (mode_command .stitch c3state).1.userState = some us1 ∧ us1.mode = .stitch ∧
      us1.pending_messages = [] ∧ us1.prepared_response = none) ∧
    (1 ∈ (mode_command .stitch c3state).1.cancelled ∧
      fireTimer groqFail true 1 (mode_command .stitch c3state).1 =
        (mode_command .stitch c3state).1) ∧
    (0 ∈ (mode_command .stitch c3state).1.cancelled ∧
      aiComplete groqFail 0 (mode_command .stitch c3state).1 =
        (mode_command .stitch c3state).1)) := by
  have h := c6_mode_change groqFail true .stitch c3state (by decide)
  exact ⟨by decide, h.1, h.2.1, h.2.2.1,
    h.2.2.2.1 c3us 1 rfl rfl (by decide),
    h.2.2.2.2.1 c3us 0 rfl rfl (by decide)⟩

/-- C3: in Eager (parallel) mode, an arrival cancels the in-flight
generation task and window timer and starts a fresh generation task and
a fresh window timer over the grown pending list; when that new window
timer fires, the still-in-flight generation task is awaited — nothing
further is ever cancelled by expiry — after which the typing indicator
is off, the staged reply (computed over the joined pending contents) is
dispatched, and both `pending_messages` and `prepared_response` are
cleared. -/
theorem c3_eager_arrival_and_expiry (groq : String → Option String)
    (s : Sys) (us : UserState) (text : String) (a0 t0 : Nat) (r : String)
    (h1 : s.userState = some us) (h2 : us.mode = .parallel)
    (h3 : us.ai_task = some a0) (h4 : a0 ∈ s.live)
    (h5 : us.timer_task = some t0) (h6 : t0 ∈ s.live)
    (h7 : groq (joinSp (us.pending_messages ++ [text])) = some r) :
    a0 ∈ (handle_message text s).cancelled ∧
    t0 ∈ (handle_message text s).cancelled ∧
    (∃ us1, (handle_message text s).userState = some us1 ∧
      us1.pending_messages = us.pending_messages ++ [text] ∧
      us1.ai_task = some s.nextId ∧ us1.timer_task = some (s.nextId + 1) ∧
      s.nextId ∈ (handle_message text s).live ∧
      s.nextId + 1 ∈ (handle_message text s).live) ∧
    (fireTimer groq true (s.nextId + 1) (handle_message text s)).cancelled =
      (handle_message text s).cancelled ∧
    sends (fireTimer groq true (s.nextId + 1) (handle_message text s)).trace =
      sends s.trace ++ [r] ∧
    (∃ us2, (fireTimer groq true (s.nextId + 1) (handle_message text s)).userState =
        some us2 ∧ us2.pending_messages = [] ∧ us2.prepared_response = none) ∧
    (fireTimer groq true (s.nextId + 1) (handle_message text s)).typing = false := by
  rcases us with ⟨mo, pend, tk, ak, pr⟩
  dsimp only at h2 h3 h5 h7
  subst h2
  subst h3
  subst h5
  have hms : handle_message text s =
      handle_parallel { s with userState := some ⟨.parallel, pend ++ [text], some t0, some a0, pr⟩ } := by
    rw [handle_message_eq s _ text h1]
  obtain ⟨l, hU, hN, hL, hSub, hS, hCa, hCt⟩ := handle_parallel_shape
    { s with userState := some ⟨.parallel, pend ++ [text], some t0, some a0, pr⟩ }
    ⟨.parallel, pend ++ [text], some t0, some a0, pr⟩ rfl
  dsimp only at hU hN hL hSub hS hCa hCt
  have htmem : s.nextId + 1 ∈ (handle_message text s).live := by
    rw [hms, hL]
    exact List.mem_cons_self _ _
  have hfire : fireTimer groq true (s.nextId + 1) (handle_message text s) =
      batch_timer_body groq true (finishTask (s.nextId + 1) (handle_message text s)) := by
    unfold fireTimer
    rw [if_pos htmem]
  have hU2 : (finishTask (s.nextId + 1) (handle_message text s)).userState =
      some ⟨.parallel, pend ++ [text], some (s.nextId + 1), some s.nextId, pr⟩ := by
    rw [finishTask_userState, hms, hU]
  have hmem2 : s.nextId ∈ (finishTask (s.nextId + 1) (handle_message text s)).live := by
    rw [finishTask_live, hms, hL, List.erase_cons]
    simp
  have hbody : batch_timer_body groq true (finishTask (s.nextId + 1) (handle_message text s)) =
      send_prepared_response (finishTask s.nextId
        (generate groq true (finishTask (s.nextId + 1) (handle_message text s)))) := by
    unfold batch_timer_body
    rw [hU2]
    dsimp only
    rw [if_pos hmem2]
  obtain ⟨gU, gL, gC, gN, _, gS⟩ := generate_true_ok groq
    (finishTask (s.nextId + 1) (handle_message text s))
    ⟨.parallel, pend ++ [text], some (s.nextId + 1), some s.nextId, pr⟩ r hU2 (by simp) h7
  have gU2 : (finishTask s.nextId
      (generate groq true (finishTask (s.nextId + 1) (handle_message text s)))).userState =
      some ⟨.parallel, pend ++ [text], some (s.nextId + 1), some s.nextId, some r⟩ := by
    rw [finishTask_userState, gU]
  obtain ⟨pU, pL, pC, pN, pT, pS⟩ := send_prepared_some _ _ r gU2 rfl
  refine ⟨?_, ?_, ?_, ?_, ?_, ?_, ?_⟩
  · rw [hms]
    exact hCa a0 rfl h4
  · rw [hms]
    exact hCt t0 rfl h6
  · refine ⟨⟨.parallel, pend ++ [text], some (s.nextId + 1), some s.nextId, pr⟩,
      by rw [hms]; exact hU, rfl, rfl, rfl, ?_, htmem⟩
    rw [hms, hL]
    exact List.mem_cons_of_mem _ (List.mem_cons_self _ _)
  · rw [hfire, hbody, pC, finishTask_cancelled, gC, finishTask_cancelled]
  · rw [hfire, hbody, pS, finishTask_trace, gS, finishTask_trace, hms, hS]
  · exact ⟨⟨.parallel, [], some (s.nextId + 1), some s.nextId, none⟩,
      by rw [hfire, hbody, pU], rfl, rfl⟩
  · rw [hfire, hbody]
    exact pT

/-- C3 witness: the concrete eager-mode state `c3state` (pending `["a"]`,
in-flight generation task 0 and window timer 1), arrival `"b"`, echoing
completion client. -/
theorem c3_eager_arrival_and_expiry_witness :
    (c3state.userState = some c3us ∧ c3us.mode = .parallel ∧ c3us.ai_task = some 0 ∧
      0 ∈ c3state.live ∧ c3us.timer_task = some 1 ∧ 1 ∈ c3state.live ∧
      groqEcho (joinSp (c3us.pending_messages ++ ["b"])) = some "re: a b") ∧
    (0 ∈ (handle_message "b" c3state).cancelled ∧
    1 ∈ (handle_message "b" c3state).cancelled ∧
    (∃ us1, (handle_message "b" c3state).userState = some us1 ∧
      us1.pending_messages = c3us.pending_messages ++ ["b"] ∧
      us1.ai_task = some c3state.nextId ∧ us1.timer_task = some (c3state.nextId + 1) ∧
      c3state.nextId ∈ (handle_message "b" c3state).live ∧
      c3state.nextId + 1 ∈ (handle_message "b" c3state).live) ∧
    (fireTimer groqEcho true (c3state.nextId + 1) (handle_message "b" c3state)).cancelled =
      (handle_message "b" c3state).cancelled ∧
    sends (fireTimer groqEcho true (c3state.nextId + 1)
        (handle_message "b" c3state)).trace = sends c3state.trace ++ ["re: a b"] ∧
    (∃ us2, (fireTimer groqEcho true (c3state.nextId + 1)
        (handle_message "b" c3state)).userState = some us2 ∧
      us2.pending_messages = [] ∧ us2.prepared_response = none) ∧
    (fireTimer groqEcho true (c3state.nextId + 1)
        (handle_message "b" c3state)).typing = false) := by
  refine ⟨⟨rfl, rfl, rfl, by decide, rfl, by decide, rfl⟩, ?_⟩
  exact c3_eager_arrival_and_expiry groqEcho c3state c3us "b" 0 1 "re: a b"
    rfl rfl rfl (by decide) rfl (by decide) rfl
